import Mathlib

/-!
Shallow embedding of the job-execution engine of the
`selenium-webscraper-MLStrom-JAO` repository:

* `src/src/webscraper/core/rate_limiter.py` (`AdaptiveRateLimiter`),
* `src/src/webscraper/core/state.py` (`DownloadStatus`, `StateManager`),
* `src/src/webscraper/scrapers/base.py` (`BaseScraper.run`).

Python `int` values are modelled as `ℕ` (all values in scope are
non-negative), Python `float` values as exact rationals `ℚ`.
Python `int(x)` applied to a non-negative float truncates towards zero,
which is the floor.  Because the `Rat` arithmetic operations are
`@[irreducible]` (so concrete instances could not be checked by `decide`),
the two places where the source computes `int(<float expression>)` are
defined below by the equivalent natural-number computation, and the
lemmas `pyIntDivQ_eq_floor` / `pyIntMul_11_10_eq_floor` prove that these
definitions agree with the floor of the exact rational expression the
source computes.
Wall-clock timestamps (`datetime.now()` / `time.time()`) are threaded
explicitly as parameters where the code reads the clock.
-/

namespace Webscraper

/-! ### rate_limiter.py -/

/-- `int(a / f)` for a non-negative int `a` and positive float `f`
(`rate_limiter.py`, line 108).  Since `f = f.num / f.den`, the real
quotient is `a * f.den / f.num`, and truncation of a non-negative value
is the floor, computed here by natural-number division. -/
def pyIntDivQ (a : ℕ) (f : ℚ) : ℕ :=
  a * f.den / f.num.toNat

/-- `int(a * 1.1)` for a non-negative int `a` (`rate_limiter.py`,
line 128, with the literal `1.1` read as the exact rational `11/10`). -/
def pyIntMul_11_10 (a : ℕ) : ℕ :=
  a * 11 / 10

/-- `pyIntDivQ a f` is the floor of the exact quotient `a / f`. -/
theorem pyIntDivQ_eq_floor (a : ℕ) (f : ℚ) (hf : 0 < f) :
    pyIntDivQ a f = ⌊(a : ℚ) / f⌋₊ := by
  have hnum : (0 : ℤ) < f.num := Rat.num_pos.mpr hf
  have hdq : ((f.den : ℕ) : ℚ) ≠ 0 := by exact_mod_cast f.den_pos.ne'
  have h1 : ((f.num.toNat : ℕ) : ℚ) = (f.num : ℚ) := by
    exact_mod_cast Int.toNat_of_nonneg hnum.le
  have key : (f.num : ℚ) = f * (f.den : ℚ) := by
    have h2 := Rat.num_div_den f
    rw [div_eq_iff hdq] at h2
    exact h2
  have hq : (a : ℚ) / f = ((a * f.den : ℕ) : ℚ) / ((f.num.toNat : ℕ) : ℚ) := by
    rw [h1, div_eq_div_iff hf.ne' (by exact_mod_cast hnum.ne')]
    push_cast
    rw [key]
    ring
  rw [pyIntDivQ, hq, Rat.natFloor_natCast_div_natCast]

/-- `pyIntMul_11_10 a` is the floor of the exact product `a * (11/10)`. -/
theorem pyIntMul_11_10_eq_floor (a : ℕ) :
    pyIntMul_11_10 a = ⌊(a : ℚ) * (11 / 10 : ℚ)⌋₊ := by
  have hq : (a : ℚ) * (11 / 10 : ℚ) = ((a * 11 : ℕ) : ℚ) / ((10 : ℕ) : ℚ) := by
    push_cast; ring
  rw [pyIntMul_11_10, hq, Rat.natFloor_natCast_div_natCast]

/-- State of `AdaptiveRateLimiter` (`rate_limiter.py`, lines 21-30 and
84-96): fields `requests_per_minute`, `min_interval`, `_request_times`,
`_initial_rpm`, `_backoff_factor`, `_consecutive_429s`.
The `threading.Lock` has no observable effect on this component's
sequential behaviour and is not part of the state. -/
structure AdaptiveRateLimiter where
  requests_per_minute : ℕ
  min_interval : ℚ
  request_times : List ℚ
  initial_rpm : ℕ
  backoff_factor : ℚ
  consecutive_429s : ℕ

/-- `AdaptiveRateLimiter.__init__(requests_per_minute, backoff_factor)`:
`super().__init__` sets `requests_per_minute`, `min_interval = 60.0 / rpm`
and an empty request-time deque; then `_initial_rpm := requests_per_minute`,
`_backoff_factor := backoff_factor`, `_consecutive_429s := 0`. -/
def mkAdaptiveRateLimiter (requests_per_minute : ℕ) (backoff_factor : ℚ) :
    AdaptiveRateLimiter :=
  { requests_per_minute := requests_per_minute
    min_interval := 60 / (requests_per_minute : ℚ)
    request_times := []
    initial_rpm := requests_per_minute
    backoff_factor := backoff_factor
    consecutive_429s := 0 }

/-- `AdaptiveRateLimiter.on_429_response` (`rate_limiter.py`, lines
98-116): increments `_consecutive_429s`;
`new_rpm = max(1, int(requests_per_minute / backoff_factor))`;
sets `requests_per_minute` and `min_interval = 60.0 / new_rpm`;
sleeps `retry_after` seconds (no state effect); clears `_request_times`. -/
def on_429_response (l : AdaptiveRateLimiter) : AdaptiveRateLimiter :=
  let new_rpm := max 1 (pyIntDivQ l.requests_per_minute l.backoff_factor)
  { l with
    consecutive_429s := l.consecutive_429s + 1
    requests_per_minute := new_rpm
    min_interval := 60 / (new_rpm : ℚ)
    request_times := [] }

/-- `AdaptiveRateLimiter.on_success_response` (`rate_limiter.py`, lines
118-131): only if `_consecutive_429s > 0`, reset that counter to 0 and,
if additionally `requests_per_minute < _initial_rpm`, set
`new_rpm = min(_initial_rpm, int(requests_per_minute * 1.1))` and
`min_interval = 60.0 / new_rpm`. -/
def on_success_response (l : AdaptiveRateLimiter) : AdaptiveRateLimiter :=
  if 0 < l.consecutive_429s then
    if l.requests_per_minute < l.initial_rpm then
      let new_rpm := min l.initial_rpm (pyIntMul_11_10 l.requests_per_minute)
      { l with
        consecutive_429s := 0
        requests_per_minute := new_rpm
        min_interval := 60 / (new_rpm : ℚ) }
    else { l with consecutive_429s := 0 }
  else l

/-! ### state.py -/

/-- `DownloadStatus` enum (`state.py`, lines 11-18). -/
inductive DownloadStatus where
  | pending
  | in_progress
  | completed
  | failed
  | skipped
deriving Repr, DecidableEq

/-- One entry of the `downloads` mapping (`state.py`, lines 101-117):
a JSON object with fields `status`, `file_path`, `error`, `attempts`,
`created_at` and (after the first merge) `updated_at`.
`attempts` is `Option ℕ` because a state file written by another tool
may lack the field (`get_attempts` defends against that with
`.get("attempts", 0)`); every record `set_status` itself creates carries
the field. -/
structure DownloadRecord where
  status : DownloadStatus
  file_path : Option String
  error : Option String
  attempts : Option ℕ
  created_at : ℕ
  updated_at : Option ℕ
deriving Repr, DecidableEq

/-- The in-memory snapshot `StateManager._state` (`state.py`, lines
54-61): `created_at`, `last_updated`, the `downloads` mapping and a
free-form `metadata` map.  The JSON dict keyed by date strings is
modelled as a function `String → Option DownloadRecord`. -/
structure StoreState where
  created_at : ℕ
  last_updated : ℕ
  downloads : String → Option DownloadRecord
  metadata : String → Option String

/-- Python truthiness of an `Optional[str]` value (`state.py`, lines
111-114 test `if file_path:` / `if error:`): `None` and the empty
string are falsy. -/
def optStrTruthy : Option String → Bool
  | none => false
  | some s => !s.isEmpty

/-- `StateManager._init_state` (`state.py`, lines 54-61): the empty
snapshot, with both timestamps set to the current time. -/
def _init_state (now : ℕ) : StoreState :=
  { created_at := now
    last_updated := now
    downloads := fun _ => none
    metadata := fun _ => none }

/-- A JSON document `json.load` can return: either shaped like the
snapshot (an object with `created_at`/`last_updated`/`downloads`/
`metadata`, decoded into `StoreState`) or any other JSON value (`[]`,
a string, an object without those keys, ...).  `_load_state` keeps a
non-snapshot document as the working state; every later query of the
source raises `TypeError`/`KeyError` on it (outside this embedding,
which defines the store operations on `StoreState` only). -/
inductive JsonDoc where
  | snapshot (s : StoreState)
  | nonSnapshot

/-- What reading the state file yields on construction (`state.py`,
lines 44-52).  `missing`: `state_file.exists()` is false.
`caughtError`: `open`/`json.load` raises one of the two caught
exceptions, `json.JSONDecodeError` (unparseable JSON) or `OSError`.
`undecodable`: the read raises `UnicodeDecodeError` (bytes that are not
valid UTF-8), which the `except (json.JSONDecodeError, OSError)` clause
does *not* catch.  `decoded j`: `json.load` succeeds with document
`j`, snapshot-shaped or not. -/
inductive DiskState where
  | missing
  | caughtError
  | undecodable
  | decoded (j : JsonDoc)

/-- `StateManager._load_state` (`state.py`, lines 44-52): a missing
file or a caught read/parse error falls back to `_init_state()`; a
decoded JSON document is returned as-is, snapshot-shaped or not; on
undecodable bytes the uncaught `UnicodeDecodeError` propagates
(`Except.error`, the exception payload not modelled). -/
def _load_state (now : ℕ) : DiskState → Except Unit JsonDoc
  | .missing => .ok (.snapshot (_init_state now))
  | .caughtError => .ok (.snapshot (_init_state now))
  | .undecodable => .error ()
  | .decoded j => .ok j

/-- `StateManager.__init__` (`state.py`, lines 34-42): the state the
store operates on is whatever `_load_state` returned; an exception
from `_load_state` escapes construction. -/
def mkStateManager (now : ℕ) (disk : DiskState) : Except Unit JsonDoc :=
  _load_state now disk

/-- `StateManager.get_status` (`state.py`, lines 71-83): the record's
status, or `PENDING` for an unknown key. -/
def get_status (st : StoreState) (date_key : String) : DownloadStatus :=
  match st.downloads date_key with
  | some r => r.status
  | none => .pending

/-- `StateManager.get_attempts` (`state.py`, lines 154-159):
`int(record.get("attempts", 0))` for a known key, else `0`. -/
def get_attempts (st : StoreState) (date_key : String) : ℕ :=
  match st.downloads date_key with
  | some r => r.attempts.getD 0
  | none => 0

/-- `StateManager.set_status`, lines 101-117 only: create the record on
first sight (with `attempts = 0`), otherwise overwrite `status`, merge
`file_path`/`error` only when the argument is truthy, and stamp
`updated_at`.  (`last_updated` is stamped later, by `_save_state`.) -/
def set_status_merge (st : StoreState) (now : ℕ) (date_key : String)
    (status : DownloadStatus) (file_path : Option String)
    (error : Option String) : StoreState :=
  let downloads1 : String → Option DownloadRecord :=
    match st.downloads date_key with
    | none => fun k =>
        if k = date_key then
          some { status := status
                 file_path := file_path
                 error := error
                 attempts := some 0
                 created_at := now
                 updated_at := none }
        else st.downloads k
    | some r => fun k =>
        if k = date_key then
          some { r with
                 status := status
                 file_path := if optStrTruthy file_path then file_path else r.file_path
                 error := if optStrTruthy error then error else r.error
                 updated_at := some now }
        else st.downloads k
  { st with downloads := downloads1 }

/-- Whether the increment line of `set_status` (`state.py`, line 120,
`["attempts"] += 1`) raises `KeyError`: the line runs only for a new
status of `IN_PROGRESS` or `FAILED`, and raises exactly when the record
already existed without the `attempts` field (a record the call itself
creates carries the field).  When this predicate holds, the source call
leaves the snapshot as `set_status_merge` (the lines before the raise),
reaches no disk write, and propagates `KeyError` to its caller. -/
def set_status_key_error (st : StoreState) (date_key : String)
    (status : DownloadStatus) : Bool :=
  (status == .in_progress || status == .failed) &&
    (match st.downloads date_key with
     | some r => r.attempts.isNone
     | none => false)

/-- `str(e)` for that `KeyError`: Python renders `KeyError("attempts")`
as the quoted missing key. -/
def keyErrorMsg : String := "'attempts'"

/-- `set_status` lines 119-120 when they do not raise: increment
`attempts` for a new status of `IN_PROGRESS` or `FAILED`.  (On the
non-raising path the field is always present, so the `getD 0` only
unwraps it.) -/
def set_status_incr (st : StoreState) (date_key : String)
    (status : DownloadStatus) : StoreState :=
  if status = .in_progress ∨ status = .failed then
    { st with downloads := fun k =>
        if k = date_key then
          (st.downloads k).map fun r => { r with attempts := some (r.attempts.getD 0 + 1) }
        else st.downloads k }
  else st

/-- `StateManager.set_status` (`state.py`, lines 85-122), full
in-memory effect of a call that does not raise (`set_status_key_error`
is false): merge, increment, and the `last_updated` stamp of
`_save_state` (line 66).  The disk write itself is threaded separately
in the run-loop embedding below. -/
def set_status (st : StoreState) (now : ℕ) (date_key : String)
    (status : DownloadStatus) (file_path : Option String)
    (error : Option String) : StoreState :=
  { set_status_incr (set_status_merge st now date_key status file_path error)
      date_key status with
    last_updated := now }

/-- Membership of a key in `get_completed_dates` (`state.py`, lines
124-131): the key has a record whose status is `COMPLETED`. -/
def dateCompleted (st : StoreState) (date_key : String) : Bool :=
  match st.downloads date_key with
  | some r => r.status == .completed
  | none => false

/-- `StateManager.get_pending_dates` (`state.py`, lines 142-152): the
subsequence of `all_dates` not in `get_completed_dates()`. -/
def get_pending_dates (st : StoreState) (all_dates : List String) : List String :=
  all_dates.filter fun d => !dateCompleted st d

/-! ### scrapers/base.py — `BaseScraper.run`

The run loop is embedded as a deterministic function over
* the configuration fields it consults (`max_retries`,
  `validate_downloads`),
* the list of date keys (already formatted as strings; the
  `generate_date_range`/`strftime`/`strptime` round-trip is the
  identity on these keys), and
* a per-key script describing the behaviour of the external world
  during that key's iteration: what `download_for_date` does, whether
  `validator.validate_file` raises, and whether each successive
  `_save_state` disk write inside the iteration raises `OSError`.

The `ProgressLogger` calls and the `print` statements have no effect on
the store and are modelled as the returned outcome list; the
`AdaptiveRateLimiter` calls (`wait_if_needed`, `on_success_response`,
`on_429_response`) never raise and never touch the store, and the
claims about the limiter are settled on its own functions above, so the
limiter is not threaded through `run`.  A `_save_state` write failure
raises *after* the in-memory mutation (the write is the last step of
`set_status`), which is why a failed save still advances the snapshot. -/

/-- The two configuration fields `run` consults (`core/config.py`,
lines 34-45: `max_retries`, `validate_downloads`). -/
structure ScraperConfig where
  max_retries : ℕ
  validate_downloads : Bool
deriving Repr, DecidableEq

/-- Behaviour of `download_for_date(target_date)` (`base.py`, line 178):
it returns a path, returns `None`, or raises an exception whose
`str(e)` is `msg`. -/
inductive FetchOutcome where
  | file (path : String)
  | noFile
  | raised (msg : String)
deriving Repr, DecidableEq

/-- External behaviour during one key's iteration.
`validation_error = some msg` means `validator.validate_file` raises an
exception with `str(e) = msg`.  `save_failures` gives the outcome of
the `i`-th `_save_state` disk write of this iteration (`none` =
written, `some msg` = `OSError` with message `msg`); entries beyond the
end of the list default to success. -/
structure KeyScript where
  fetch : FetchOutcome
  validation_error : Option String
  save_failures : List (Option String)
deriving Repr, DecidableEq

/-- One outcome event of the pass, as reported to the `ProgressLogger`
(`log_success` / `log_failure` / `log_skip`). -/
inductive Outcome where
  | success (key : String)
  | failure (key : String) (msg : String)
  | skip (key : String) (msg : String)
deriving Repr, DecidableEq

/-- Result of one iteration of the `for target_date in
pending_date_objects` loop (`base.py`, lines 159-216): either the
iteration completes with an outcome event, or an exception escapes the
iteration (only possible from the `set_status` in the `except` handler,
line 211) and propagates out of `run`. -/
inductive StepResult where
  | ok (st : StoreState) (out : Outcome)
  | raised (st : StoreState) (msg : String)

/-- One iteration of the run loop for key `k` (`base.py`, lines
159-216).  `sc.save_failures` is consumed positionally: index 0 is the
`IN_PROGRESS` write (line 172), index 1 the terminal write inside the
`try` (lines 181, 193 or 203), and the `except Exception` handler's
write (line 211) uses the next index after the write that raised.
When the record of `k` exists without the `attempts` field, the
`IN_PROGRESS` write raises `KeyError` at `state.py` line 120 (after its
merge, before any disk write); the `except Exception` boundary catches
it, and the handler's own `FAILED` write merges the message and then
raises the same `KeyError`, which escapes `run`.  On the non-raising
branch every later write of the iteration operates on a record the
`IN_PROGRESS` write equipped with the field, so no other write can
raise `KeyError`. -/
def processKey (cfg : ScraperConfig) (now : ℕ) (st : StoreState)
    (k : String) (sc : KeyScript) : StepResult :=
  -- `except Exception` handler (lines 209-216): record FAILED with
  -- `str(e)`; if that write also raises, the exception leaves `run`.
  let handle : StoreState → String → ℕ → StepResult := fun st' msg i =>
    let st3 := set_status st' now k .failed none (some msg)
    match sc.save_failures.getD i none with
    | some m2 => .raised st3 m2
    | none => .ok st3 (.failure k msg)
  -- lines 202-207: mark COMPLETED with the artifact path.
  let complete : StoreState → String → StepResult := fun st1 p =>
    let st2 := set_status st1 now k .completed (some p) none
    match sc.save_failures.getD 1 none with
    | some msg => handle st2 msg 2
    | none => .ok st2 (.success k)
  let attempts := get_attempts st k
  if cfg.max_retries ≤ attempts then
    -- lines 163-169: skip, state untouched.
    .ok st (.skip k ("max attempts (" ++ toString attempts ++ ") exceeded"))
  else if set_status_key_error st k .in_progress then
    -- the IN_PROGRESS write raises KeyError; the handler write raises
    -- the same KeyError again and it propagates out of `run`.
    let st1 := set_status_merge st now k .in_progress none none
    let st2 := set_status_merge st1 now k .failed none (some keyErrorMsg)
    .raised st2 keyErrorMsg
  else
    -- line 172: mark IN_PROGRESS (plus its disk write).
    let st1 := set_status st now k .in_progress none none
    match sc.save_failures.getD 0 none with
    | some msg => handle st1 msg 1
    | none =>
      match sc.fetch with
      | .raised msg => handle st1 msg 1
      | .noFile =>
        -- lines 180-186: FAILED, "Download returned None".
        let st2 := set_status st1 now k .failed none (some "Download returned None")
        match sc.save_failures.getD 1 none with
        | some msg => handle st2 msg 2
        | none => .ok st2 (.failure k "Download returned None")
      | .file p =>
        if cfg.validate_downloads then
          match sc.validation_error with
          | some verr =>
            -- lines 189-200: FAILED, path retained for diagnostics.
            let emsg := "Validation failed: " ++ verr
            let st2 := set_status st1 now k .failed (some p) (some emsg)
            match sc.save_failures.getD 1 none with
            | some msg => handle st2 msg 2
            | none => .ok st2 (.failure k emsg)
          | none => complete st1 p
        else complete st1 p

/-- The loop of `run` over the pending keys, accumulating outcome
events; a `StepResult.raised` aborts the pass (the exception propagates
out of `run`, reported here as the `Option String` component). -/
def runLoop (cfg : ScraperConfig) (now : ℕ) (scripts : String → KeyScript) :
    List String → StoreState → List Outcome →
    StoreState × List Outcome × Option String
  | [], st, outs => (st, outs.reverse, none)
  | k :: rest, st, outs =>
    match processKey cfg now st k (scripts k) with
    | .ok st' out => runLoop cfg now scripts rest st' (out :: outs)
    | .raised st' msg => (st', outs.reverse, some msg)

/-- `BaseScraper.run` (`base.py`, lines 115-228): filter the key list
through `get_pending_dates` when `resume` is set, then process each
remaining key in order.  Returns the final snapshot, the outcome
events, and the exception (if any) that propagated out of `run`. -/
def run (cfg : ScraperConfig) (now : ℕ) (scripts : String → KeyScript)
    (all_keys : List String) (resume : Bool) (st : StoreState) :
    StoreState × List Outcome × Option String :=
  let pending := if resume then get_pending_dates st all_keys else all_keys
  runLoop cfg now scripts pending st []

/-- The snapshot a `StepResult` leaves behind (on `raised`, the
exception escapes after the in-memory mutations already performed). -/
def StepResult.store : StepResult → StoreState
  | .ok st _ => st
  | .raised st _ => st

/-- Whether the iteration let an exception escape `run`. -/
def StepResult.raisedQ : StepResult → Bool
  | .ok _ _ => false
  | .raised _ _ => true

/-- Every `_save_state` disk write of this script succeeds. -/
def savesAllSucceed (sc : KeyScript) : Bool :=
  sc.save_failures.all fun o => o == none

/-! ### Lock discipline of `set_status` (claim C9)

`state.py` line 100 opens `with self._lock:` around the snapshot
mutation (lines 101-120); that block ends before line 122 calls
`self._save_state()`, which opens a second `with self._lock:` (line 65)
around the disk write (lines 66-69).  `threading.Lock` is not
re-entrant, so the source could not have nested the second block in the
first.  The lock-relevant behaviour of one `set_status` call is
embedded as the sequence of lock operations and store actions read off
those lines. -/

/-- A lock or store action inside one `StateManager` call. -/
inductive StoreAction where
  | acquire
  | release
  | mutateSnapshot
  | persistToDisk
deriving Repr, DecidableEq

/-- The action sequence of one `set_status` call: mutation inside the
first critical section (`state.py` lines 100-120), persist inside a
second one (`state.py` lines 63-69, entered from line 122). -/
def set_status_actions : List StoreAction :=
  [.acquire, .mutateSnapshot, .release, .acquire, .persistToDisk, .release]

/-- The property claimed of `set_status`: from the snapshot mutation to
the disk write the lock is held continuously, i.e. no `release` occurs
between the `mutateSnapshot` action and the following `persistToDisk`. -/
def continuousHoldAcrossPersist (t : List StoreAction) : Bool :=
  let afterMutate := (t.dropWhile fun a => !(a == .mutateSnapshot)).drop 1
  let between := afterMutate.takeWhile fun a => !(a == .persistToDisk)
  !(between.contains .release)

/-- An action tagged with the thread performing it (`false` and `true`
name the two concurrent callers). -/
structure ThreadAction where
  tid : Bool
  act : StoreAction
deriving Repr, DecidableEq

/-- Mutual-exclusion validity of an interleaved trace: `acquire` only
when the lock is free, `release` only by the holder, and snapshot or
disk actions only while holding the lock.  The first argument is the
current holder. -/
def lockValid : Option Bool → List ThreadAction → Bool
  | _, [] => true
  | owner, ta :: rest =>
    match ta.act, owner with
    | .acquire, none => lockValid (some ta.tid) rest
    | .acquire, some _ => false
    | .release, some o => o == ta.tid && lockValid none rest
    | .release, none => false
    | _, some o => o == ta.tid && lockValid owner rest
    | _, none => false

/-- `t` is an interleaving of thread `false` running `a` and thread
`true` running `b` (each thread performs its own actions in order). -/
def isInterleaving : List ThreadAction → List StoreAction → List StoreAction → Bool
  | [], [], [] => true
  | [], _ :: _, _ => false
  | [], [], _ :: _ => false
  | ta :: rest, a, b =>
    if ta.tid then
      match b with
      | x :: b2 => x == ta.act && isInterleaving rest a b2
      | [] => false
    else
      match a with
      | x :: a2 => x == ta.act && isInterleaving rest a2 b
      | [] => false

/-- The writes of the two calls interleave: between thread `false`
performing its snapshot mutation and performing its disk write, thread
`true` gets its own snapshot mutation in. -/
def writesInterleaved (t : List ThreadAction) : Bool :=
  let afterAMutate :=
    (t.dropWhile fun x => !(x == ⟨false, .mutateSnapshot⟩)).drop 1
  let between := afterAMutate.takeWhile fun x => !(x == ⟨false, .persistToDisk⟩)
  between.contains ⟨true, .mutateSnapshot⟩

/-- A lock-valid schedule of two concurrent `set_status` calls in which
both snapshot mutations happen before either disk write. -/
def interleavedSchedule : List ThreadAction :=
  [⟨false, .acquire⟩, ⟨false, .mutateSnapshot⟩, ⟨false, .release⟩,
   ⟨true, .acquire⟩, ⟨true, .mutateSnapshot⟩, ⟨true, .release⟩,
   ⟨false, .acquire⟩, ⟨false, .persistToDisk⟩, ⟨false, .release⟩,
   ⟨true, .acquire⟩, ⟨true, .persistToDisk⟩, ⟨true, .release⟩]

/-! ### Concrete artifacts used by the claim theorems -/

/-- The limiter of the §8 scenario after overload, recovery and one
further success: ceiling 33, below the initial 60, with the
consecutive-429 counter back at 0. -/
def limiterRecovered : AdaptiveRateLimiter :=
  on_success_response (on_success_response (on_429_response
    (mkAdaptiveRateLimiter 60 2)))

/-- A store holding one key completed by a prior pass (marked
in-progress, then completed with its artifact path). -/
def storeOneCompleted : StoreState :=
  set_status
    (set_status (_init_state 0) 0 "2024-01-01" .in_progress none none)
    0 "2024-01-01" .completed (some "data.csv") none

/-- External behaviour for a pass whose fetch raises a generic network
error, with every disk write succeeding. -/
def scriptFetchRaises : KeyScript :=
  { fetch := .raised "network error", validation_error := none, save_failures := [] }

/-- External behaviour whose first disk write (the `IN_PROGRESS` one)
raises `OSError`, after which everything succeeds. -/
def scriptFirstWriteFails : KeyScript :=
  { fetch := .file "a.csv", validation_error := none,
    save_failures := [some "disk full", none] }

/-- External behaviour where the fetch returns no file and the write
recording that failure raises, so the `except` handler performs (and
successfully persists) a further `FAILED` write. -/
def scriptFailedWriteFails : KeyScript :=
  { fetch := .noFile, validation_error := none,
    save_failures := [none, some "disk full", none] }

/-- External behaviour for a pass whose fetch and validation succeed
and whose disk writes all succeed. -/
def scriptAllOk : KeyScript :=
  { fetch := .file "a.csv", validation_error := none, save_failures := [] }

/-- A store whose single record lacks the `attempts` field, as a state
file written by another tool may (reachable through
`DiskState.decoded (JsonDoc.snapshot ...)`). -/
def storeNoAttemptsField : StoreState :=
  { created_at := 0
    last_updated := 0
    downloads := fun k =>
      if k = "2024-01-01" then
        some { status := .failed, file_path := none, error := none,
               attempts := none, created_at := 0, updated_at := none }
      else none
    metadata := fun _ => none }

/-- The download record of `k`, if any, carries the `attempts` field.
Every record created by `set_status` does; only a foreign state file
can lack it, and on such a record the `+= 1` of the source raises
`KeyError` where the embedding counts from 0. -/
def attemptsFieldPresent (st : StoreState) (k : String) : Bool :=
  match st.downloads k with
  | some r => r.attempts.isSome
  | none => true

/-! ## Supporting lemmas -/

/-- The merge step touches only its own key. -/
theorem set_status_merge_downloads_other (st : StoreState) (now : ℕ)
    (dk : String) (status : DownloadStatus) (fp e : Option String)
    (k : String) (hne : k ≠ dk) :
    (set_status_merge st now dk status fp e).downloads k = st.downloads k := by
  unfold set_status_merge
  cases h : st.downloads dk <;> simp [h, hne]

/-- The increment step touches only its own key. -/
theorem set_status_incr_downloads_other (st : StoreState) (dk : String)
    (status : DownloadStatus) (k : String) (hne : k ≠ dk) :
    (set_status_incr st dk status).downloads k = st.downloads k := by
  unfold set_status_incr
  split <;> simp [hne]

/-- `set_status` touches only its own key. -/
theorem set_status_downloads_other (st : StoreState) (now : ℕ) (dk : String)
    (status : DownloadStatus) (fp e : Option String) (k : String) (hne : k ≠ dk) :
    (set_status st now dk status fp e).downloads k = st.downloads k := by
  show (set_status_incr (set_status_merge st now dk status fp e) dk
      status).downloads k = st.downloads k
  rw [set_status_incr_downloads_other _ _ _ _ hne,
    set_status_merge_downloads_other _ _ _ _ _ _ _ hne]

/-- `get_attempts` reads only the download entry of its key. -/
theorem get_attempts_eq_of_downloads_eq {st1 st2 : StoreState} {k : String}
    (h : st1.downloads k = st2.downloads k) :
    get_attempts st1 k = get_attempts st2 k := by
  unfold get_attempts
  rw [h]

/-- `get_status` reads only the download entry of its key. -/
theorem get_status_eq_of_downloads_eq {st1 st2 : StoreState} {k : String}
    (h : st1.downloads k = st2.downloads k) :
    get_status st1 k = get_status st2 k := by
  unfold get_status
  rw [h]

/-- The merge step never changes the attempt count of any key (a
created record carries `attempts = 0`, the count an absent record reads
as; an existing record keeps its field). -/
theorem set_status_merge_attempts (st : StoreState) (now : ℕ) (dk : String)
    (status : DownloadStatus) (fp e : Option String) (k : String) :
    get_attempts (set_status_merge st now dk status fp e) k
      = get_attempts st k := by
  by_cases hk : k = dk
  · subst hk
    unfold set_status_merge get_attempts
    cases h : st.downloads k <;> simp [h]
  · exact get_attempts_eq_of_downloads_eq
      (set_status_merge_downloads_other st now dk status fp e k hk)

/-- The attempt count after `set_status`: incremented exactly when the
new status is `IN_PROGRESS` or `FAILED` (`state.py`, lines 119-120). -/
theorem set_status_attempts_self (st : StoreState) (now : ℕ) (k : String)
    (status : DownloadStatus) (fp e : Option String) :
    get_attempts (set_status st now k status fp e) k =
      if status = .in_progress ∨ status = .failed then get_attempts st k + 1
      else get_attempts st k := by
  by_cases hs : status = DownloadStatus.in_progress ∨ status = DownloadStatus.failed <;>
    cases h : st.downloads k <;>
      simp [set_status, set_status_incr, set_status_merge, get_attempts, h, hs,
        ite_apply]

/-- `set_status` stores exactly the status it is given. -/
theorem get_status_set_status_self (st : StoreState) (now : ℕ) (k : String)
    (status : DownloadStatus) (fp e : Option String) :
    get_status (set_status st now k status fp e) k = status := by
  by_cases hs : status = DownloadStatus.in_progress ∨ status = DownloadStatus.failed <;>
    cases h : st.downloads k <;>
      simp [set_status, set_status_incr, set_status_merge, get_status, h, hs,
        ite_apply]

/-- A record with the `attempts` field present never triggers the
`KeyError` of `set_status` (the raise needs an existing record lacking
the field). -/
theorem present_key_error (st : StoreState) (k : String)
    (status : DownloadStatus) (hpres : attemptsFieldPresent st k = true) :
    set_status_key_error st k status = false := by
  unfold attemptsFieldPresent at hpres
  unfold set_status_key_error
  cases h : st.downloads k with
  | none => simp [h]
  | some r =>
    simp only [h] at hpres
    cases hr : r.attempts with
    | none => rw [hr] at hpres; simp at hpres
    | some a => simp [h, hr]

/-- `set_status` keeps every record equipped with the `attempts` field
when all records were (the record it creates carries the field, a merge
keeps it, the increment rewrites it to `some`). -/
theorem set_status_preserves_present (st : StoreState) (now : ℕ) (dk : String)
    (status : DownloadStatus) (fp e : Option String)
    (h : ∀ k2, attemptsFieldPresent st k2 = true) :
    ∀ k2, attemptsFieldPresent (set_status st now dk status fp e) k2 = true := by
  intro k2
  by_cases hk : k2 = dk
  · subst hk
    have hpres := h k2
    unfold attemptsFieldPresent at hpres ⊢
    by_cases hs : status = DownloadStatus.in_progress ∨ status = DownloadStatus.failed <;>
      cases hc : st.downloads k2 <;>
        · rw [hc] at hpres
          simp_all [set_status, set_status_incr, set_status_merge, hc, hs,
            ite_apply]
  · have hpres := h k2
    unfold attemptsFieldPresent at hpres ⊢
    rw [set_status_downloads_other st now dk status fp e k2 hk]
    exact hpres

/-- Membership in the completed set is exactly a `COMPLETED` status. -/
theorem dateCompleted_iff (st : StoreState) (k : String) :
    dateCompleted st k = true ↔ get_status st k = .completed := by
  unfold dateCompleted get_status
  cases h : st.downloads k <;> simp

/-- In a list whose entries are all `none`, `getD` is `none` at every
index. -/
theorem all_none_getD {l : List (Option String)}
    (h : l.all (fun o => o == none) = true) (i : ℕ) : l.getD i none = none := by
  induction l generalizing i with
  | nil => rfl
  | cons a t ih =>
    simp only [List.all_cons, Bool.and_eq_true, beq_iff_eq] at h
    cases i with
    | zero => simpa using h.1
    | succ n => simpa using ih h.2 n

/-- Under `savesAllSucceed`, every positional write outcome is `none`. -/
theorem saves_getD (sc : KeyScript) (hs : savesAllSucceed sc = true) (i : ℕ) :
    sc.save_failures.getD i none = none := by
  refine all_none_getD ?_ i
  simpa [savesAllSucceed] using hs

/-- A key whose attempt count has reached `max_retries` is skipped and
the snapshot left untouched (`base.py`, lines 163-169). -/
theorem processKey_skip (cfg : ScraperConfig) (now : ℕ) (st : StoreState)
    (k : String) (sc : KeyScript) (h : cfg.max_retries ≤ get_attempts st k) :
    processKey cfg now st k sc
      = .ok st (.skip k ("max attempts (" ++ toString (get_attempts st k) ++ ") exceeded")) := by
  simp [processKey, h]

/-- One loop iteration touches only the key it processes. -/
theorem processKey_store_other (cfg : ScraperConfig) (now : ℕ) (st : StoreState)
    (k2 : String) (sc : KeyScript) (k : String) (hne : k ≠ k2) :
    (processKey cfg now st k2 sc).store.downloads k = st.downloads k := by
  have hset : ∀ (st' : StoreState) status fp e,
      (set_status st' now k2 status fp e).downloads k = st'.downloads k :=
    fun st' status fp e => set_status_downloads_other st' now k2 status fp e k hne
  have hsetm : ∀ (st' : StoreState) status fp e,
      (set_status_merge st' now k2 status fp e).downloads k = st'.downloads k :=
    fun st' status fp e =>
      set_status_merge_downloads_other st' now k2 status fp e k hne
  simp only [processKey]
  repeat' split
  all_goals simp [StepResult.store, hset, hsetm]

/-- When every disk write succeeds and the record of the processed key
carries the `attempts` field (so the increment cannot raise), one loop
iteration never lets an exception escape. -/
theorem processKey_not_raised (cfg : ScraperConfig) (now : ℕ) (st : StoreState)
    (k : String) (sc : KeyScript) (hs : savesAllSucceed sc = true)
    (hp : attemptsFieldPresent st k = true) :
    (processKey cfg now st k sc).raisedQ = false := by
  have h0 := saves_getD sc hs 0
  have h1 := saves_getD sc hs 1
  have h2 := saves_getD sc hs 2
  have hke := present_key_error st k .in_progress hp
  simp only [processKey, h0, h1, h2, hke]
  repeat' split
  all_goals simp_all [StepResult.raisedQ]

/-- One loop iteration raises the attempt count of its key by at most 2
(`IN_PROGRESS` plus at most one `FAILED`) when every disk write
succeeds; on the `KeyError` path the count does not move at all. -/
theorem processKey_attempts_le (cfg : ScraperConfig) (now : ℕ) (st : StoreState)
    (k : String) (sc : KeyScript) (hs : savesAllSucceed sc = true) :
    get_attempts (processKey cfg now st k sc).store k ≤ get_attempts st k + 2 := by
  have h0 := saves_getD sc hs 0
  have h1 := saves_getD sc hs 1
  have h2 := saves_getD sc hs 2
  simp only [processKey, h0, h1, h2]
  repeat' split
  all_goals simp [StepResult.store, set_status_attempts_self,
    set_status_merge_attempts]

/-- A loop iteration keeps every record equipped with the `attempts`
field when all records were (on that assumption the `KeyError` branch
cannot fire and every write is a `set_status`). -/
theorem processKey_preserves_present (cfg : ScraperConfig) (now : ℕ)
    (st : StoreState) (k : String) (sc : KeyScript)
    (h : ∀ k2, attemptsFieldPresent st k2 = true) :
    ∀ k2, attemptsFieldPresent (processKey cfg now st k sc).store k2 = true := by
  intro k2
  have hke := present_key_error st k .in_progress (h k)
  simp only [processKey, hke]
  repeat' split
  all_goals simp_all [StepResult.store]
  all_goals solve_by_elim [set_status_preserves_present]

/-- A pass leaves every key outside its processed list untouched. -/
theorem runLoop_downloads_other (cfg : ScraperConfig) (now : ℕ)
    (scripts : String → KeyScript) (keys : List String) (st : StoreState)
    (outs : List Outcome) (k : String) (hk : ∀ k2 ∈ keys, k2 ≠ k) :
    (runLoop cfg now scripts keys st outs).1.downloads k = st.downloads k := by
  induction keys generalizing st outs with
  | nil => rfl
  | cons a t ih =>
    have ha : k ≠ a := (hk a (List.mem_cons_self a t)).symm
    have hother := processKey_store_other cfg now st a (scripts a) k ha
    have ht : ∀ k2 ∈ t, k2 ≠ k := fun k2 hmem => hk k2 (List.mem_cons_of_mem a hmem)
    cases hp : processKey cfg now st a (scripts a) with
    | ok st2 out =>
      rw [hp] at hother
      simp only [StepResult.store] at hother
      simp only [runLoop, hp]
      rw [ih st2 (out :: outs) ht, hother]
    | raised st2 msg =>
      rw [hp] at hother
      simp only [StepResult.store] at hother
      simp only [runLoop, hp]
      exact hother

/-- A pass leaves a key whose attempt count has reached `max_retries`
completely unchanged (it is only ever skipped). -/
theorem runLoop_downloads_frozen (cfg : ScraperConfig) (now : ℕ)
    (scripts : String → KeyScript) (keys : List String) (st : StoreState)
    (outs : List Outcome) (k : String)
    (h : cfg.max_retries ≤ get_attempts st k) :
    (runLoop cfg now scripts keys st outs).1.downloads k = st.downloads k := by
  induction keys generalizing st outs with
  | nil => rfl
  | cons a t ih =>
    by_cases hak : a = k
    · subst hak
      rw [runLoop, processKey_skip cfg now st a (scripts a) h]
      exact ih st (Outcome.skip a ("max attempts (" ++ toString (get_attempts st a) ++ ") exceeded") :: outs) h
    · have hother := processKey_store_other cfg now st a (scripts a) k
        fun hkeq => hak hkeq.symm
      cases hp : processKey cfg now st a (scripts a) with
      | ok st2 out =>
        rw [hp] at hother
        simp only [StepResult.store] at hother
        have h2 : cfg.max_retries ≤ get_attempts st2 k := by
          rwa [get_attempts_eq_of_downloads_eq hother]
        simp only [runLoop, hp]
        rw [ih st2 (out :: outs) h2, hother]
      | raised st2 msg =>
        rw [hp] at hother
        simp only [StepResult.store] at hother
        simp only [runLoop, hp]
        exact hother

/-- When every disk write succeeds, a pass keeps the attempt count of
every key at or below `max_retries + 1`. -/
theorem runLoop_attempts_bound (cfg : ScraperConfig) (now : ℕ)
    (scripts : String → KeyScript) (keys : List String) (st : StoreState)
    (outs : List Outcome) (k : String)
    (hs : ∀ k2, savesAllSucceed (scripts k2) = true)
    (h : get_attempts st k ≤ cfg.max_retries + 1) :
    get_attempts (runLoop cfg now scripts keys st outs).1 k
      ≤ cfg.max_retries + 1 := by
  induction keys generalizing st outs with
  | nil => exact h
  | cons a t ih =>
    have hb : get_attempts (processKey cfg now st a (scripts a)).store k
        ≤ cfg.max_retries + 1 := by
      by_cases hak : a = k
      · subst hak
        by_cases hge : cfg.max_retries ≤ get_attempts st a
        · rw [processKey_skip cfg now st a (scripts a) hge]
          exact h
        · have hlt : get_attempts st a < cfg.max_retries := Nat.lt_of_not_le hge
          have := processKey_attempts_le cfg now st a (scripts a) (hs a)
          omega
      · have hother := processKey_store_other cfg now st a (scripts a) k
          fun hkeq => hak hkeq.symm
        rwa [get_attempts_eq_of_downloads_eq hother]
    cases hp : processKey cfg now st a (scripts a) with
    | ok st2 out =>
      rw [hp] at hb
      simp only [StepResult.store] at hb
      simp only [runLoop, hp]
      exact ih st2 (out :: outs) hb
    | raised st2 msg =>
      rw [hp] at hb
      simp only [StepResult.store] at hb
      simp only [runLoop, hp]
      exact hb

/-- When every disk write succeeds and every record carries the
`attempts` field, a pass returns normally: no exception propagates out
of the loop. -/
theorem runLoop_error_none (cfg : ScraperConfig) (now : ℕ)
    (scripts : String → KeyScript) (keys : List String) (st : StoreState)
    (outs : List Outcome)
    (hs : ∀ k2, savesAllSucceed (scripts k2) = true)
    (ha : ∀ k2, attemptsFieldPresent st k2 = true) :
    (runLoop cfg now scripts keys st outs).2.2 = none := by
  induction keys generalizing st outs with
  | nil => rfl
  | cons a t ih =>
    have hnr := processKey_not_raised cfg now st a (scripts a) (hs a) (ha a)
    have hpres := processKey_preserves_present cfg now st a (scripts a) ha
    cases hp : processKey cfg now st a (scripts a) with
    | ok st2 out =>
      rw [hp] at hpres
      simp only [StepResult.store] at hpres
      simp only [runLoop, hp]
      exact ih st2 (out :: outs) hpres
    | raised st2 msg =>
      rw [hp] at hnr
      simp [StepResult.raisedQ] at hnr

/-! ## Claim C1 -/

/-- C1: the claim is false as stated.  In the reachable state after one
overload and one success (`limiterRecovered`) the ceiling is 33, below
the initial 60, yet a further `on_success_response` leaves it at 33
because `_consecutive_429s` is 0 — not at
`min(initial_rpm, floor(ceiling * 1.1)) = 36`. -/
theorem claim_C1_counterexample :
    limiterRecovered.requests_per_minute < limiterRecovered.initial_rpm ∧
    (on_success_response limiterRecovered).requests_per_minute
      = limiterRecovered.requests_per_minute ∧
    limiterRecovered.requests_per_minute
      ≠ min limiterRecovered.initial_rpm
          ⌊(limiterRecovered.requests_per_minute : ℚ) * (11 / 10 : ℚ)⌋₊ := by
  refine ⟨by decide, by decide, ?_⟩
  rw [← pyIntMul_11_10_eq_floor]
  decide

/-- C1 (amended): `on_success_response` is a complete no-op whenever
`_consecutive_429s = 0`, even with the ceiling below `initial_rpm`;
only when `_consecutive_429s > 0` does it raise a ceiling below
`initial_rpm` to `min(initial_rpm, floor(ceiling * 1.1))`, and leave a
ceiling at `initial_rpm` (or above) unchanged.  The scenario holds:
with `initial_rpm = 60` and `backoff_factor = 2.0`, one overload signal
gives ceiling 30 and one subsequent success signal gives 33. -/
theorem claim_C1_amended (l : AdaptiveRateLimiter) :
    (l.consecutive_429s = 0 → on_success_response l = l) ∧
    (0 < l.consecutive_429s → l.requests_per_minute < l.initial_rpm →
      (on_success_response l).requests_per_minute
        = min l.initial_rpm ⌊(l.requests_per_minute : ℚ) * (11 / 10 : ℚ)⌋₊) ∧
    (0 < l.consecutive_429s → l.initial_rpm ≤ l.requests_per_minute →
      (on_success_response l).requests_per_minute = l.requests_per_minute) ∧
    (on_429_response (mkAdaptiveRateLimiter 60 2)).requests_per_minute = 30 ∧
    (on_success_response (on_429_response
      (mkAdaptiveRateLimiter 60 2))).requests_per_minute = 33 := by
  refine ⟨?_, ?_, ?_, by decide, by decide⟩
  · intro h
    simp [on_success_response, h]
  · intro h1 h2
    rw [← pyIntMul_11_10_eq_floor]
    simp [on_success_response, h1, h2]
  · intro h1 h2
    simp [on_success_response, h1, Nat.not_lt.mpr h2]

/-- Witness for C1 (amended): after the overload of the scenario the
counter is 1 and the ceiling 30 < 60, and the success signal raises the
ceiling to `min(60, floor(30 * 1.1))`. -/
theorem claim_C1_witness :
    (on_success_response (on_429_response
      (mkAdaptiveRateLimiter 60 2))).requests_per_minute
      = min (on_429_response (mkAdaptiveRateLimiter 60 2)).initial_rpm
          ⌊((on_429_response (mkAdaptiveRateLimiter 60 2)).requests_per_minute : ℚ)
            * (11 / 10 : ℚ)⌋₊ :=
  (claim_C1_amended (on_429_response (mkAdaptiveRateLimiter 60 2))).2.1
    (by decide) (by decide)

/-! ## Claim C6 -/

/-- C6: every overload signal sets the ceiling to
`max(1, floor(ceiling / backoff_factor))` and clears the sliding-window
request history; with `backoff_factor > 1` the new ceiling is strictly
below the old one whenever the old one is at least 2, and a ceiling
already at the floor of 1 stays 1. -/
theorem claim_C6 (l : AdaptiveRateLimiter) (hf : 1 < l.backoff_factor) :
    (on_429_response l).requests_per_minute
      = max 1 ⌊(l.requests_per_minute : ℚ) / l.backoff_factor⌋₊ ∧
    (on_429_response l).request_times = [] ∧
    (2 ≤ l.requests_per_minute →
      (on_429_response l).requests_per_minute < l.requests_per_minute) ∧
    (l.requests_per_minute = 1 → (on_429_response l).requests_per_minute = 1) := by
  have hf0 : (0 : ℚ) < l.backoff_factor := lt_trans one_pos hf
  have hmain : (on_429_response l).requests_per_minute
      = max 1 ⌊(l.requests_per_minute : ℚ) / l.backoff_factor⌋₊ := by
    simp [on_429_response, pyIntDivQ_eq_floor _ _ hf0]
  refine ⟨hmain, rfl, ?_, ?_⟩
  · intro h2
    rw [hmain]
    have hr0 : 0 < l.requests_per_minute := by omega
    have hq0 : (0 : ℚ) ≤ (l.requests_per_minute : ℚ) / l.backoff_factor := by
      positivity
    have hlt : (l.requests_per_minute : ℚ) / l.backoff_factor
        < (l.requests_per_minute : ℚ) := by
      apply div_lt_self _ hf
      exact_mod_cast hr0
    have hfl : ⌊(l.requests_per_minute : ℚ) / l.backoff_factor⌋₊
        < l.requests_per_minute := by
      rw [Nat.floor_lt hq0]
      exact hlt
    omega
  · intro h1
    rw [hmain, h1]
    have hlt1 : ((1 : ℕ) : ℚ) / l.backoff_factor < 1 := by
      rw [Nat.cast_one, div_lt_one hf0]
      exact hf
    have h0 : ⌊((1 : ℕ) : ℚ) / l.backoff_factor⌋₊ = 0 := Nat.floor_eq_zero.mpr hlt1
    rw [h0]
    simp

/-- Witness for C6: the scenario limiter (`initial_rpm 60`,
`backoff_factor 2.0`) strictly lowers its ceiling and clears its
history on an overload signal. -/
theorem claim_C6_witness :
    (on_429_response (mkAdaptiveRateLimiter 60 2)).requests_per_minute
        < (mkAdaptiveRateLimiter 60 2).requests_per_minute ∧
    (on_429_response (mkAdaptiveRateLimiter 60 2)).request_times = [] :=
  ⟨(claim_C6 (mkAdaptiveRateLimiter 60 2) (by decide)).2.2.1 (by decide),
   (claim_C6 (mkAdaptiveRateLimiter 60 2) (by decide)).2.1⟩

/-! ## Claim C2 -/

/-- C2: the claim is false as stated.  A `run` pass with
`resume = false` re-processes a Completed key: starting from a store in
which "2024-01-01" is Completed, a pass whose fetch raises marks the
key InProgress and leaves it Failed — so Completed is not preserved by
every listed operation. -/
theorem claim_C2_counterexample :
    get_status storeOneCompleted "2024-01-01" = .completed ∧
    get_status (run ⟨3, true⟩ 1 (fun _ => scriptFetchRaises)
        ["2024-01-01"] false storeOneCompleted).1 "2024-01-01" = .failed := by
  decide

/-- C2 (amended): a Completed key is terminal for every `resume = true`
pass — it is filtered out of the pending list and no operation of such
a pass touches its record.  The transition discipline is not enforced
by `set_status` itself, which unconditionally writes whatever status it
is given, and a `resume = false` pass re-marks Completed keys
InProgress (and can leave them Failed), as the counterexample shows. -/
theorem claim_C2_amended (cfg : ScraperConfig) (now : ℕ)
    (scripts : String → KeyScript) (all_keys : List String)
    (st : StoreState) (k : String) (h : get_status st k = .completed) :
    (run cfg now scripts all_keys true st).1.downloads k = st.downloads k ∧
    get_status (run cfg now scripts all_keys true st).1 k = .completed := by
  have hpend : ∀ k2 ∈ get_pending_dates st all_keys, k2 ≠ k := by
    intro k2 hmem hk2
    subst hk2
    unfold get_pending_dates at hmem
    rw [List.mem_filter, (dateCompleted_iff st k2).mpr h] at hmem
    simp at hmem
  have hd : (run cfg now scripts all_keys true st).1.downloads k
      = st.downloads k :=
    runLoop_downloads_other cfg now scripts (get_pending_dates st all_keys)
      st [] k hpend
  exact ⟨hd, by rw [get_status_eq_of_downloads_eq hd, h]⟩

/-- Witness for C2 (amended): a resuming pass over the store holding
one Completed key leaves that key Completed. -/
theorem claim_C2_witness :
    get_status (run ⟨3, true⟩ 1 (fun _ => scriptFetchRaises)
      ["2024-01-01"] true storeOneCompleted).1 "2024-01-01" = .completed :=
  (claim_C2_amended ⟨3, true⟩ 1 (fun _ => scriptFetchRaises) ["2024-01-01"]
    storeOneCompleted "2024-01-01" (by decide)).2

/-! ## Claim C3 -/

/-- C3: the claim is false in two ways.  First, a persistence failure
does not propagate on every occurrence: when the `IN_PROGRESS` write
raises `OSError("disk full")` and every later write succeeds, the
failure is caught by the per-key `except Exception` boundary and
recorded as a Failed state record — `run` returns normally, with the
OSError text stored as the record error.  Second, a persistence
failure is not the only error that can escape `run`: on a record
lacking the `attempts` field (all disk writes healthy, fetch fine) the
increment of `state.py` line 120 raises `KeyError`, the handler's own
write re-raises it, and it propagates out of `run`. -/
theorem claim_C3_counterexample :
    (run ⟨3, true⟩ 0 (fun _ => scriptFirstWriteFails) ["2024-01-01"] true
      (_init_state 0)).2.2 = none ∧
    ((run ⟨3, true⟩ 0 (fun _ => scriptFirstWriteFails) ["2024-01-01"] true
      (_init_state 0)).1.downloads "2024-01-01").map DownloadRecord.error
      = some (some "disk full") ∧
    get_status (run ⟨3, true⟩ 0 (fun _ => scriptFirstWriteFails) ["2024-01-01"]
      true (_init_state 0)).1 "2024-01-01" = .failed ∧
    (run ⟨3, true⟩ 0 (fun _ => scriptAllOk) ["2024-01-01"] true
      storeNoAttemptsField).2.2 = some keyErrorMsg := by
  decide

/-- C3 (amended): `run` never raises because of per-key fetch or
validation failures — when every state-store write succeeds and every
record carries the `attempts` field, a pass returns normally whatever
the fetches and validations do.  Two kinds of error escape `run`: a
persistence failure striking the `FAILED`-recording write of the
`except` handler (persistence failures in the other writes are caught
by the per-key boundary and recorded as Failed), and the `KeyError` of
the attempts increment on a foreign record lacking the field, which
the handler's own write re-raises; both are shown concretely by the
counterexample. -/
theorem claim_C3_amended (cfg : ScraperConfig) (now : ℕ)
    (scripts : String → KeyScript) (all_keys : List String) (resume : Bool)
    (st : StoreState) (hs : ∀ k2, savesAllSucceed (scripts k2) = true)
    (ha : ∀ k2, attemptsFieldPresent st k2 = true) :
    (run cfg now scripts all_keys resume st).2.2 = none :=
  runLoop_error_none cfg now scripts
    (if resume then get_pending_dates st all_keys else all_keys) st [] hs ha

/-- Witness for C3 (amended): a pass whose fetch raises on both keys
but whose writes all succeed, over a fresh store, returns without an
exception. -/
theorem claim_C3_witness :
    (run ⟨3, true⟩ 0 (fun _ => scriptFetchRaises) ["2024-01-01", "2024-01-02"]
      true (_init_state 0)).2.2 = none :=
  claim_C3_amended ⟨3, true⟩ 0 (fun _ => scriptFetchRaises)
    ["2024-01-01", "2024-01-02"] true (_init_state 0) (fun _ => rfl)
    (fun _ => rfl)

/-! ## Claim C4 -/

/-- C4: the claim is false in its "no increment without a status
change" part: `set_status` increments `attempts` whenever the *new*
status is InProgress or Failed, even when the record already has that
status.  Marking an already-Failed record Failed again moves
`attempts` from 1 to 2. -/
theorem claim_C4_counterexample :
    get_status (set_status (_init_state 0) 0 "2024-01-01" .failed none none)
      "2024-01-01" = .failed ∧
    get_attempts (set_status (_init_state 0) 0 "2024-01-01" .failed none none)
      "2024-01-01" = 1 ∧
    get_attempts (set_status (set_status (_init_state 0) 0 "2024-01-01" .failed
      none none) 1 "2024-01-01" .failed none none) "2024-01-01" = 2 := by
  decide

/-- C4 (amended): `attempts` is a non-negative integer and a
`set_status` call increments it iff the new status argument is
InProgress or Failed, regardless of the status the record currently
has (setting Failed on an already-Failed record does increment).  The
hypothesis marks the one corner where embedding and source differ in
failure mode only: on a foreign record lacking the `attempts` field the
source raises `KeyError` instead of counting from 0. -/
theorem claim_C4_amended (st : StoreState) (now : ℕ) (k : String)
    (status : DownloadStatus) (fp e : Option String)
    (_h : attemptsFieldPresent st k = true) :
    get_attempts (set_status st now k status fp e) k
      = if status = .in_progress ∨ status = .failed
        then get_attempts st k + 1 else get_attempts st k :=
  set_status_attempts_self st now k status fp e

/-- Witness for C4 (amended): re-marking the Completed record
InProgress increments its attempt count. -/
theorem claim_C4_witness :
    get_attempts (set_status storeOneCompleted 1 "2024-01-01" .in_progress
      none none) "2024-01-01" = get_attempts storeOneCompleted "2024-01-01" + 1 := by
  have h := claim_C4_amended storeOneCompleted 1 "2024-01-01" .in_progress
    none none (by decide)
  simpa using h

/-! ## Claim C5 -/

/-- C5: the claim is false as stated: the `attempts(k) ≤ N + 1` bound
can be exceeded.  With `max_retries = 1`, a fresh key whose fetch
returns no file and whose Failed-recording write raises reaches
attempts 3 within one pass (`IN_PROGRESS` +1, the in-try `FAILED` +1,
the handler `FAILED` +1), and 3 > N + 1 = 2. -/
theorem claim_C5_counterexample :
    get_attempts (run ⟨1, true⟩ 0 (fun _ => scriptFailedWriteFails)
      ["2024-01-01"] true (_init_state 0)).1 "2024-01-01" = 3 ∧
    ¬ (get_attempts (run ⟨1, true⟩ 0 (fun _ => scriptFailedWriteFails)
      ["2024-01-01"] true (_init_state 0)).1 "2024-01-01" ≤ 1 + 1) := by
  decide

/-- C5 (amended): provided every state-store write succeeds, the claim
holds: a pass keeps `attempts(k) ≤ N + 1` whenever that held before it
(hence over any sequence of passes from a fresh store), and —
unconditionally — once `attempts(k) ≥ N` the key is never transitioned
again: a pass leaves its record untouched, and the loop iteration
meeting the key yields exactly a Skip outcome with the state unchanged.
A disk failure on the Failed-recording write of the `try` block adds
one extra Failed increment, reaching `N + 2` (see the counterexample),
which is the only amendment the code forces. -/
theorem claim_C5_amended (cfg : ScraperConfig) (now : ℕ)
    (scripts : String → KeyScript) (all_keys : List String) (resume : Bool)
    (st : StoreState) (k : String) :
    ((∀ k2, savesAllSucceed (scripts k2) = true) →
      get_attempts st k ≤ cfg.max_retries + 1 →
      get_attempts (run cfg now scripts all_keys resume st).1 k
        ≤ cfg.max_retries + 1) ∧
    (cfg.max_retries ≤ get_attempts st k →
      (run cfg now scripts all_keys resume st).1.downloads k
        = st.downloads k) ∧
    (cfg.max_retries ≤ get_attempts st k → ∀ sc,
      processKey cfg now st k sc = .ok st (.skip k
        ("max attempts (" ++ toString (get_attempts st k) ++ ") exceeded"))) := by
  refine ⟨?_, ?_, ?_⟩
  · intro hs h
    exact runLoop_attempts_bound cfg now scripts
      (if resume then get_pending_dates st all_keys else all_keys) st [] k hs h
  · intro h
    exact runLoop_downloads_frozen cfg now scripts
      (if resume then get_pending_dates st all_keys else all_keys) st [] k h
  · intro h sc
    exact processKey_skip cfg now st k sc h

/-- Witness for C5 (amended), with `max_retries = 1` and the store
whose key "2024-01-01" already has 1 attempt: the bound persists over
a further (non-resuming) pass, the record is untouched, and the
iteration yields the Skip outcome. -/
theorem claim_C5_witness :
    get_attempts (run ⟨1, true⟩ 2 (fun _ => scriptFetchRaises) ["2024-01-01"]
      false storeOneCompleted).1 "2024-01-01" ≤ 1 + 1 ∧
    (run ⟨1, true⟩ 2 (fun _ => scriptFetchRaises) ["2024-01-01"]
      false storeOneCompleted).1.downloads "2024-01-01"
      = storeOneCompleted.downloads "2024-01-01" ∧
    processKey ⟨1, true⟩ 2 storeOneCompleted "2024-01-01" scriptFetchRaises
      = .ok storeOneCompleted (.skip "2024-01-01"
          ("max attempts ("
            ++ toString (get_attempts storeOneCompleted "2024-01-01")
            ++ ") exceeded")) :=
  ⟨(claim_C5_amended ⟨1, true⟩ 2 (fun _ => scriptFetchRaises) ["2024-01-01"]
      false storeOneCompleted "2024-01-01").1 (fun _ => rfl) (by decide),
   (claim_C5_amended ⟨1, true⟩ 2 (fun _ => scriptFetchRaises) ["2024-01-01"]
      false storeOneCompleted "2024-01-01").2.1 (by decide),
   (claim_C5_amended ⟨1, true⟩ 2 (fun _ => scriptFetchRaises) ["2024-01-01"]
      false storeOneCompleted "2024-01-01").2.2 (by decide) scriptFetchRaises⟩

/-! ## Claim C7 -/

/-- C7: the claim is false: construction does not survive every
on-disk content.  A state file of undecodable bytes raises
`UnicodeDecodeError`, which the `except (json.JSONDecodeError,
OSError)` clause of `state.py` line 50 does not catch, so construction
fails the caller; and a well-formed JSON document that is not
snapshot-shaped is kept as the working state instead of being replaced
by an empty snapshot. -/
theorem claim_C7_counterexample :
    mkStateManager 0 .undecodable = .error () ∧
    mkStateManager 0 (.decoded .nonSnapshot) = .ok JsonDoc.nonSnapshot ∧
    JsonDoc.nonSnapshot ≠ JsonDoc.snapshot (_init_state 0) :=
  ⟨rfl, rfl, fun h => JsonDoc.noConfusion h⟩

/-- C7 (amended): on a missing state file, on unparseable JSON
(`json.JSONDecodeError`) and on a read error (`OSError`), construction
initializes — and the queries then operate on — the empty snapshot
(Pending status and zero attempts for every key) without failing the
caller.  Construction is not total over every on-disk content, though:
undecodable bytes propagate `UnicodeDecodeError` uncaught, and a
decoded JSON document is kept as-is, snapshot-shaped or not. -/
theorem claim_C7_amended (now : ℕ) :
    mkStateManager now .missing = .ok (.snapshot (_init_state now)) ∧
    mkStateManager now .caughtError = .ok (.snapshot (_init_state now)) ∧
    (∀ k : String, get_status (_init_state now) k = .pending ∧
      get_attempts (_init_state now) k = 0) ∧
    mkStateManager now .undecodable = .error () ∧
    (∀ j : JsonDoc, mkStateManager now (.decoded j) = .ok j) :=
  ⟨rfl, rfl, fun _ => ⟨rfl, rfl⟩, rfl, fun _ => rfl⟩

/-! ## Claim C8 -/

/-- C8: a `set_status` call passing neither a result path nor an error
leaves the stored `file_path` and `error` of an existing record
unchanged, whatever the new status (e.g. re-marking a Completed key
InProgress under `resume = false`); a supplied non-empty path does
overwrite it, as on the next Completed transition. -/
theorem claim_C8 (st : StoreState) (now : ℕ) (k : String)
    (status : DownloadStatus) (r : DownloadRecord)
    (h : st.downloads k = some r) :
    ((set_status st now k status none none).downloads k).map
        DownloadRecord.file_path = some r.file_path ∧
    ((set_status st now k status none none).downloads k).map
        DownloadRecord.error = some r.error ∧
    (∀ p : String, p ≠ "" →
      ((set_status st now k status (some p) none).downloads k).map
          DownloadRecord.file_path = some (some p)) := by
  refine ⟨?_, ?_, ?_⟩
  · by_cases hs : status = DownloadStatus.in_progress ∨ status = DownloadStatus.failed <;>
      simp [set_status, set_status_incr, set_status_merge, h, hs, ite_apply,
        optStrTruthy]
  · by_cases hs : status = DownloadStatus.in_progress ∨ status = DownloadStatus.failed <;>
      simp [set_status, set_status_incr, set_status_merge, h, hs, ite_apply,
        optStrTruthy]
  · intro p hp
    have ht : optStrTruthy (some p) = true := by
      have he : p.isEmpty = false := by
        rw [Bool.eq_false_iff]
        intro hcontra
        exact hp ((String.isEmpty_iff p).mp hcontra)
      simp [optStrTruthy, he]
    by_cases hs : status = DownloadStatus.in_progress ∨ status = DownloadStatus.failed <;>
      simp [set_status, set_status_incr, set_status_merge, h, hs, ite_apply, ht]

/-- Witness for C8: re-marking the Completed record InProgress with no
arguments keeps its stored path and error; supplying "b.csv" on the
next Completed transition overwrites the path. -/
theorem claim_C8_witness :
    ((set_status storeOneCompleted 1 "2024-01-01" .in_progress none none).downloads
        "2024-01-01").map DownloadRecord.file_path = some (some "data.csv") ∧
    ((set_status storeOneCompleted 1 "2024-01-01" .completed (some "b.csv")
        none).downloads "2024-01-01").map DownloadRecord.file_path
      = some (some "b.csv") := by
  have h := claim_C8 storeOneCompleted 1 "2024-01-01" .in_progress
    { status := .completed, file_path := some "data.csv", error := none,
      attempts := some 1, created_at := 0, updated_at := some 0 } (by decide)
  have h2 := claim_C8 storeOneCompleted 1 "2024-01-01" .completed
    { status := .completed, file_path := some "data.csv", error := none,
      attempts := some 1, created_at := 0, updated_at := some 0 } (by decide)
  exact ⟨h.1, h2.2.2 "b.csv" (by decide)⟩

/-! ## Claim C9 -/

/-- C9: the claim is false: in the source the in-memory snapshot
mutation and the persist-to-disk step are two separate critical
sections — the `with self._lock:` block of `set_status` (`state.py`
line 100) ends before `_save_state` re-acquires the lock (line 65) —
so the lock is not held continuously from the mutation through the
disk write. -/
theorem claim_C9_counterexample :
    continuousHoldAcrossPersist set_status_actions = false := by
  decide

/-- C9 (amended): each of the two steps is individually protected —
one `set_status` call is exactly one critical section around the
snapshot mutation followed by a second one around the persist — but
the lock is released in between, so two concurrent `set_status` calls
can interleave their steps: there is a lock-valid schedule of two
calls in which both snapshot mutations happen before either disk
write. -/
theorem claim_C9_amended :
    set_status_actions
      = [.acquire, .mutateSnapshot, .release]
        ++ [.acquire, .persistToDisk, .release] ∧
    lockValid none interleavedSchedule = true ∧
    isInterleaving interleavedSchedule set_status_actions set_status_actions
      = true ∧
    writesInterleaved interleavedSchedule = true := by
  decide

/-! ## Claim C10 -/

/-- C10: `get_attempts` returns 0 both for a key with no record in the
store and for a record whose `attempts` field is absent; as a total
function into ℕ it never fails. -/
theorem claim_C10 (st : StoreState) (k : String) :
    (st.downloads k = none → get_attempts st k = 0) ∧
    (∀ r : DownloadRecord, st.downloads k = some r → r.attempts = none →
      get_attempts st k = 0) := by
  constructor
  · intro h
    simp [get_attempts, h]
  · intro r h ha
    simp [get_attempts, h, ha]

/-- Witness for C10: the fresh store has no record for the key, and the
foreign store has a record lacking the `attempts` field; both give 0. -/
theorem claim_C10_witness :
    get_attempts (_init_state 0) "2024-01-01" = 0 ∧
    get_attempts storeNoAttemptsField "2024-01-01" = 0 :=
  ⟨(claim_C10 (_init_state 0) "2024-01-01").1 rfl,
   (claim_C10 storeNoAttemptsField "2024-01-01").2
     { status := .failed, file_path := none, error := none,
       attempts := none, created_at := 0, updated_at := none } (by decide) rfl⟩

end Webscraper
